import Mathlib

/-! Verification development for the Monte Carlo tennis match simulator in
`src/tennis_simulator_app.py` (v10).  Python floats are modelled as rationals.
The process-wide `random.random()` stream is modelled as a function
`s : ℕ → ℚ` together with the index `k` of the next draw, threaded through
every consumer in program order.  The source's `while` loops carry no bound of
their own, so their embeddings take a fuel argument counting loop iterations
and return `none` when the loop has not exited within that many iterations. -/

/-- Surface choices offered in the sidebar (line 68 of the source). -/
inductive Surface
  | Hard
  | Clay
  | Grass
  deriving DecidableEq

/-- Surface multiplier table of line 105: Hard 1.00, Clay 0.96, Grass 1.04. -/
def surf_mult : Surface → ℚ
  | .Hard => 1
  | .Clay => 24/25
  | .Grass => 26/25

/-- One row of the player stats table after column detection, carrying the
fields that `get_player_stats` reads (lines 92–99). -/
structure StatsRow where
  player : String
  surface : Surface
  serve_win : ℚ
  return_win : ℚ

/-- Lines 92–99: filter the table by player and surface; if no row matches
return the defaults `(0.62, 0.38)`, otherwise the first matching row's
serve-win and return-win rates. -/
def get_player_stats (table : List StatsRow) (surface : Surface) (player : String) : ℚ × ℚ :=
  match table.find? (fun r => decide (r.player = player ∧ r.surface = surface)) with
  | none => (62/100, 38/100)
  | some r => (r.serve_win, r.return_win)

/-- The scoreboard inputs of lines 114–122: sets, games, points and advantage
flags for both sides, supplied externally before the simulation runs. -/
structure SuppliedScore where
  sets_a : ℕ
  sets_b : ℕ
  games_a : ℕ
  games_b : ℕ
  points_a : ℕ
  points_b : ℕ
  adv_a : Bool
  adv_b : Bool
  deriving DecidableEq

/-- Line 143: `p = a_serve if random.random() < 0.5 else b_serve` — the rate
used for the next game is chosen by a fresh uniform draw, not by alternation. -/
def chosenRate (a_serve b_serve : ℚ) (s : ℕ → ℚ) (k : ℕ) : ℚ :=
  if s k < 1/2 then a_serve else b_serve

/-- Lines 144–145: `if pressure and (ga >= 5 or gb >= 5): p *= 1.03`. -/
def gamePressure (pressure : Bool) (ga gb : ℕ) (p : ℚ) : ℚ :=
  if pressure ∧ (5 ≤ ga ∨ 5 ≤ gb) then p * (103/100) else p

/-- One iteration of the inner `while` loop of lines 142–149: draw the rate
for this game (consuming the draw at index `k`), apply pressure, then compare
the draw at index `k+1` against it; the winner's game count goes up by one.
Returns the next stream index and the updated game counts.  Note that a single
point draw decides a whole game: the source keeps no point counts. -/
def setStep (a_serve b_serve : ℚ) (pressure : Bool) (s : ℕ → ℚ) (k ga gb : ℕ) : ℕ × ℕ × ℕ :=
  if s (k+1) < gamePressure pressure ga gb (chosenRate a_serve b_serve s k) then
    (k+2, ga+1, gb)
  else
    (k+2, ga, gb+1)

/-- The inner `while` loop of lines 142–149: iterate `setStep` while
`(ga < 6 and gb < 6) or abs(ga - gb) < 2`; on exit report whether side A took
the set (`ga > gb`, line 150) and the next stream index.  `fuel` bounds the
number of loop iterations (the source has no bound); `none` means the loop has
not exited within `fuel` iterations. -/
def playSet (a_serve b_serve : ℚ) (pressure : Bool) (s : ℕ → ℚ) :
    ℕ → ℕ → ℕ → ℕ → Option (Bool × ℕ)
  | 0, _, _, _ => none
  | fuel+1, k, ga, gb =>
    if (ga < 6 ∧ gb < 6) ∨ Int.natAbs ((ga : ℤ) - (gb : ℤ)) < 2 then
      playSet a_serve b_serve pressure s fuel
        (setStep a_serve b_serve pressure s k ga gb).1
        (setStep a_serve b_serve pressure s k ga gb).2.1
        (setStep a_serve b_serve pressure s k ga gb).2.2
    else
      some (decide (gb < ga), k)

/-- The outer `while` loop of lines 140–153: while both set counts are below
`sets_to_win`, play a set starting from games 0–0 (line 141) and credit it to
the winner (lines 150–153); on exit report whether side A won the match
(`sa > sb`, line 154) and the next stream index.  `fuel` bounds the number of
set iterations; `gameFuel` is passed to each set's inner loop. -/
def trialLoop (a_serve b_serve : ℚ) (sets_to_win : ℕ) (pressure : Bool)
    (s : ℕ → ℚ) (gameFuel : ℕ) : ℕ → ℕ → ℕ → ℕ → Option (Bool × ℕ)
  | 0, _, _, _ => none
  | fuel+1, k, sa, sb =>
    if sa < sets_to_win ∧ sb < sets_to_win then
      match playSet a_serve b_serve pressure s gameFuel k 0 0 with
      | none => none
      | some (aWonSet, k') =>
        if aWonSet then
          trialLoop a_serve b_serve sets_to_win pressure s gameFuel fuel k' (sa+1) sb
        else
          trialLoop a_serve b_serve sets_to_win pressure s gameFuel fuel k' sa (sb+1)
    else
      some (decide (sb < sa), k)

/-- One trial of the `for` loop body, lines 139–153: the set counters are
seeded from the supplied scoreboard's sets (`sa, sb = sets_a, sets_b`,
line 139); the supplied games, points and advantage flags are never read. -/
def runTrial (a_serve b_serve : ℚ) (sets_to_win : ℕ) (pressure : Bool)
    (sc : SuppliedScore) (s : ℕ → ℚ) (setFuel gameFuel k : ℕ) : Option (Bool × ℕ) :=
  trialLoop a_serve b_serve sets_to_win pressure s gameFuel setFuel k sc.sets_a sc.sets_b

/-- The `for _ in range(...)` loop of lines 138–155: run the given number of
trials, threading the stream index, counting the trials side A won. -/
def runTrials (a_serve b_serve : ℚ) (sets_to_win : ℕ) (pressure : Bool)
    (sc : SuppliedScore) (s : ℕ → ℚ) (setFuel gameFuel : ℕ) :
    ℕ → ℕ → ℕ → Option (ℕ × ℕ)
  | 0, k, wins => some (wins, k)
  | n+1, k, wins =>
    match runTrial a_serve b_serve sets_to_win pressure sc s setFuel gameFuel k with
    | none => none
    | some (aWon, k') =>
      runTrials a_serve b_serve sets_to_win pressure sc s setFuel gameFuel n k'
        (wins + if aWon then 1 else 0)

/-- Lines 136–156, `simulate_match`: run 100000 trials and return
`a_match_wins / 100000`.  The returned value is the only output: no standard
error or any other statistic is computed. -/
def simulate_match (a_serve b_serve : ℚ) (sets_to_win : ℕ) (pressure : Bool)
    (sc : SuppliedScore) (s : ℕ → ℚ) (setFuel gameFuel : ℕ) : Option ℚ :=
  match runTrials a_serve b_serve sets_to_win pressure sc s setFuel gameFuel 100000 0 0 with
  | none => none
  | some (wins, _) => some ((wins : ℚ) / 100000)

/-- Lines 101–107 and 161–162: from the two looked-up stats pairs
`(serve_win, return_win)`, multiply the serve rates by the surface multiplier,
compute `sets_target = match_format // 2 + 1`, and call `simulate_match`.
Only the first component of each pair is ever used. -/
def simulateFromStats (pa pb : ℚ × ℚ) (surface : Surface) (match_format : ℕ)
    (pressure : Bool) (sc : SuppliedScore) (s : ℕ → ℚ) (setFuel gameFuel : ℕ) : Option ℚ :=
  simulate_match (pa.1 * surf_mult surface) (pb.1 * surf_mult surface)
    (match_format / 2 + 1) pressure sc s setFuel gameFuel

/-- The full pipeline from the stats table to the simulated probability:
lines 92–107 and 161–162. -/
def appSimProb (table : List StatsRow) (surface : Surface) (player_a player_b : String)
    (match_format : ℕ) (pressure : Bool) (sc : SuppliedScore) (s : ℕ → ℚ)
    (setFuel gameFuel : ℕ) : Option ℚ :=
  simulateFromStats (get_player_stats table surface player_a)
    (get_player_stats table surface player_b) surface match_format pressure sc s
    setFuel gameFuel

/-- The per-point (equivalently per-game-draw) server-win probability exactly
as the source computes it: the base rate times the surface multiplier
(lines 105–107) with the pressure bump of lines 144–145.  No clamping is
applied anywhere in the source. -/
def pointProb (baseRate : ℚ) (surface : Surface) (pressure : Bool) (ga gb : ℕ) : ℚ :=
  gamePressure pressure ga gb (baseRate * surf_mult surface)

/-- Line 163: `market_prob = 1 / back_odds_a if back_odds_a > 0 else 0`. -/
def market_prob (back_odds : ℚ) : ℚ :=
  if back_odds > 0 then 1 / back_odds else 0

/-- Line 164: `edge = sim_prob - market_prob`. -/
def edge_of (sim_prob market : ℚ) : ℚ :=
  sim_prob - market

/-- Lines 169–170: `kelly_stake = max(2, (bankroll * edge) / max(0.01,
(back_odds_a - 1)))` followed by `kelly_stake *= kelly_factor`. -/
def kelly_stake (bankroll edge back_odds kelly_factor : ℚ) : ℚ :=
  (max 2 ((bankroll * edge) / max (1/100) (back_odds - 1))) * kelly_factor

/-- The recommendation shown to the user (lines 171–176): BACK with the stake
when the edge is positive, LAY with the stake when it is negative, otherwise
no edge. -/
inductive BetAction
  | back (stake : ℚ)
  | lay (stake : ℚ)
  | noEdge
  deriving DecidableEq

/-- Lines 171–176: the branch on the sign of the edge. -/
def action_of (edge stake : ℚ) : BetAction :=
  if edge > 0 then .back stake
  else if edge < 0 then .lay stake
  else .noEdge

/-- The numeric values the app reports after a simulation (lines 182–184):
the simulated win probability, the market implied probability, and the edge.
Nothing else numeric is reported. -/
def reported_metrics (sim_prob back_odds : ℚ) : List ℚ :=
  [sim_prob, market_prob back_odds, edge_of sim_prob (market_prob back_odds)]

/-- A supplied scoreboard whose set score is already terminal for a
best-of-three match: side A has 2 sets. -/
def sc0 : SuppliedScore := ⟨2, 0, 0, 0, 0, 0, false, false⟩

/-- A random stream, period four, under which (with both rates 1/2 and no
pressure) game wins alternate between the two sides forever, so the inner set
loop never reaches a two-game margin once past 6–6. -/
def divergentStream : ℕ → ℚ :=
  fun j => if j % 4 = 3 then 9/10 else 0

/-- Claim C1 (counterexample): the per-point probability is not clamped to
[0.01, 0.99].  With base rate 0 it is 0 < 0.01, and with base rate 1 on Grass
under pressure at 5–0 games it is 1.0712 > 0.99. -/
theorem c1_clamp_counterexample :
    pointProb 0 Surface.Hard false 0 0 = 0 ∧
    ¬ ((1:ℚ)/100 ≤ pointProb 0 Surface.Hard false 0 0) ∧
    pointProb 1 Surface.Grass true 5 0 = 1339/1250 ∧
    ¬ (pointProb 1 Surface.Grass true 5 0 ≤ 99/100) := by
  refine ⟨?_, ?_, ?_, ?_⟩ <;> norm_num [pointProb, gamePressure, surf_mult]

/-- Claim C1 (amended): for any base rate in [0,1], any surface, pressure flag
and game score, the per-point probability lies in [0, 1339/1250]
(1339/1250 = 1.04 · 1.03); the source applies no clamp to [0.01, 0.99]. -/
theorem c1_point_prob_bounds (r : ℚ) (hr0 : 0 ≤ r) (hr1 : r ≤ 1)
    (surface : Surface) (pressure : Bool) (ga gb : ℕ) :
    0 ≤ pointProb r surface pressure ga gb ∧
    pointProb r surface pressure ga gb ≤ 1339/1250 := by
  unfold pointProb gamePressure
  have hm0 : 0 ≤ surf_mult surface := by cases surface <;> norm_num [surf_mult]
  have hm1 : surf_mult surface ≤ 26/25 := by cases surface <;> norm_num [surf_mult]
  have h0 : 0 ≤ r * surf_mult surface := mul_nonneg hr0 hm0
  have h1 : r * surf_mult surface ≤ 26/25 := by
    calc r * surf_mult surface ≤ 1 * (26/25) :=
          mul_le_mul hr1 hm1 hm0 (by norm_num)
      _ = 26/25 := by norm_num
  split
  · refine ⟨mul_nonneg h0 (by norm_num), ?_⟩
    calc r * surf_mult surface * (103/100) ≤ (26/25) * (103/100) :=
          mul_le_mul_of_nonneg_right h1 (by norm_num)
      _ = 1339/1250 := by norm_num
  · exact ⟨h0, le_trans h1 (by norm_num)⟩

/-- Witness for `c1_point_prob_bounds` at base rate 1/2 on Grass under
pressure at 5–5. -/
theorem c1_point_prob_bounds_witness :
    (0:ℚ) ≤ 1/2 ∧ (1/2:ℚ) ≤ 1 ∧
    (0 ≤ pointProb (1/2) Surface.Grass true 5 5 ∧
      pointProb (1/2) Surface.Grass true 5 5 ≤ 1339/1250) :=
  ⟨by norm_num, by norm_num,
    c1_point_prob_bounds (1/2) (by norm_num) (by norm_num) Surface.Grass true 5 5⟩

/-- Claim C6 (counterexample): with edge −0.1, odds 2.0, bankroll 1000 and
full Kelly, the stake is 2, not 0, and a LAY bet is recommended — the code
never returns stake 0 on a non-positive edge. -/
theorem c6_negative_edge_counterexample :
    kelly_stake 1000 (-1/10) 2 1 = 2 ∧ (2:ℚ) ≠ 0 ∧
    action_of (-1/10) (kelly_stake 1000 (-1/10) 2 1) = BetAction.lay 2 := by
  refine ⟨?_, by norm_num, ?_⟩ <;>
    norm_num [kelly_stake, action_of, max_eq_left, max_eq_right]

/-- Claim C6 (amended): the stake is always
`max(2, bankroll·edge / max(0.01, odds−1)) · kellyMultiplier`, hence at least
`2 · kellyMultiplier` for any sign of the edge; a positive edge yields a BACK
recommendation with that stake, and a negative edge yields a LAY
recommendation with that stake rather than no bet. -/
theorem c6_stake_floor (bankroll edge back_odds kelly_factor : ℚ)
    (hk : 0 ≤ kelly_factor) :
    2 * kelly_factor ≤ kelly_stake bankroll edge back_odds kelly_factor ∧
    (0 < edge → action_of edge (kelly_stake bankroll edge back_odds kelly_factor)
        = BetAction.back (kelly_stake bankroll edge back_odds kelly_factor)) ∧
    (edge < 0 → action_of edge (kelly_stake bankroll edge back_odds kelly_factor)
        = BetAction.lay (kelly_stake bankroll edge back_odds kelly_factor)) := by
  refine ⟨mul_le_mul_of_nonneg_right (le_max_left _ _) hk, ?_, ?_⟩
  · intro h
    unfold action_of
    rw [if_pos h]
  · intro h
    unfold action_of
    rw [if_neg (by linarith), if_pos h]

/-- Witness for `c6_stake_floor` at bankroll 1000, edge 0.1, odds 2.0, full
Kelly. -/
theorem c6_stake_floor_witness :
    (0:ℚ) ≤ 1 ∧
    (2 * 1 ≤ kelly_stake 1000 (1/10) 2 1 ∧
      ((0:ℚ) < 1/10 → action_of (1/10) (kelly_stake 1000 (1/10) 2 1)
          = BetAction.back (kelly_stake 1000 (1/10) 2 1)) ∧
      ((1:ℚ)/10 < 0 → action_of (1/10) (kelly_stake 1000 (1/10) 2 1)
          = BetAction.lay (kelly_stake 1000 (1/10) 2 1))) :=
  ⟨by norm_num, c6_stake_floor 1000 (1/10) 2 1 (by norm_num)⟩

/-- Claim C7 (counterexample): at odds 2.0, win probability 0.55, bankroll
1000, full Kelly, the edge is 0.05 as claimed but the stake is £50, not the
claimed £100: the code stakes `bankroll · edge / (odds − 1)`, not the Kelly
fraction `(p(odds−1) − (1−p)) / (odds−1) = 0.10`. -/
theorem c7_scenario_counterexample :
    edge_of (11/20) (market_prob 2) = 1/20 ∧
    kelly_stake 1000 (edge_of (11/20) (market_prob 2)) 2 1 = 50 ∧
    ¬ (kelly_stake 1000 (edge_of (11/20) (market_prob 2)) 2 1 = 100) := by
  have hm : market_prob 2 = 1/2 := by norm_num [market_prob]
  have he : edge_of (11/20) (market_prob 2) = 1/20 := by
    rw [hm]; norm_num [edge_of]
  refine ⟨he, ?_, ?_⟩ <;> rw [he] <;> norm_num [kelly_stake]

/-- Claim C7 (amended): at odds 2.0, win probability 0.55, bankroll 1000 and
full Kelly the code computes edge = 0.05 and stake
`max(2, 1000·0.05/max(0.01, 1))·1 = £50`, recommending BACK at £50. -/
theorem c7_scenario_amended :
    edge_of (11/20) (market_prob 2) = 1/20 ∧
    kelly_stake 1000 (1/20) 2 1 = 50 ∧
    action_of (1/20) (kelly_stake 1000 (1/20) 2 1) = BetAction.back 50 := by
  refine ⟨?_, ?_, ?_⟩ <;>
    norm_num [edge_of, market_prob, kelly_stake, action_of]

/-- Claim C10: when the stats table has no row for the given player and
surface, `get_player_stats` returns the defaults (0.62, 0.38), and the full
pipeline then behaves exactly as if both players had those rates as real
data. -/
theorem c10_missing_stats_defaults :
    (∀ (table : List StatsRow) (surface : Surface) (player : String),
      table.find? (fun r => decide (r.player = player ∧ r.surface = surface)) = none →
      get_player_stats table surface player = (62/100, 38/100)) ∧
    (∀ (table : List StatsRow) (surface : Surface) (player_a player_b : String)
        (match_format : ℕ) (pressure : Bool) (sc : SuppliedScore) (s : ℕ → ℚ)
        (setFuel gameFuel : ℕ),
      table.find? (fun r => decide (r.player = player_a ∧ r.surface = surface)) = none →
      table.find? (fun r => decide (r.player = player_b ∧ r.surface = surface)) = none →
      appSimProb table surface player_a player_b match_format pressure sc s setFuel gameFuel
        = simulateFromStats (62/100, 38/100) (62/100, 38/100) surface match_format
            pressure sc s setFuel gameFuel) := by
  constructor
  · intro table surface player h
    unfold get_player_stats
    rw [h]
  · intro table surface pA pB fmt pr sc s sf gf hA hB
    unfold appSimProb get_player_stats
    rw [hA, hB]

/-- Witness for `c10_missing_stats_defaults`: the empty table has no row for
any player, so the defaults are returned and feed the pipeline. -/
theorem c10_missing_stats_defaults_witness :
    get_player_stats [] Surface.Hard "Novak" = (62/100, 38/100) ∧
    appSimProb [] Surface.Hard "Novak" "Rafa" 3 false sc0 (fun _ => 0) 1 1
      = simulateFromStats (62/100, 38/100) (62/100, 38/100) Surface.Hard 3 false sc0
          (fun _ => 0) 1 1 :=
  ⟨c10_missing_stats_defaults.1 [] Surface.Hard "Novak" rfl,
   c10_missing_stats_defaults.2 [] Surface.Hard "Novak" "Rafa" 3 false sc0
     (fun _ => 0) 1 1 rfl rfl⟩


/-- Helper: a game draw below the (pressure-adjusted) chosen rate puts the
game on side A's count. -/
theorem setStep_win (a b : ℚ) (pr : Bool) (s : ℕ → ℚ) (k ga gb : ℕ)
    (h : s (k+1) < gamePressure pr ga gb (chosenRate a b s k)) :
    setStep a b pr s k ga gb = (k+2, ga+1, gb) := by
  unfold setStep
  rw [if_pos h]

/-- Helper: a game draw at or above the (pressure-adjusted) chosen rate puts
the game on side B's count. -/
theorem setStep_loss (a b : ℚ) (pr : Bool) (s : ℕ → ℚ) (k ga gb : ℕ)
    (h : ¬ s (k+1) < gamePressure pr ga gb (chosenRate a b s k)) :
    setStep a b pr s k ga gb = (k+2, ga, gb+1) := by
  unfold setStep
  rw [if_neg h]

/-- Helper: while the set-continuation condition holds, the set loop makes one
`setStep` and recurses on the remaining fuel. -/
theorem playSet_step (a b : ℚ) (pr : Bool) (s : ℕ → ℚ) (fuel k ga gb : ℕ)
    (h : (ga < 6 ∧ gb < 6) ∨ Int.natAbs ((ga : ℤ) - (gb : ℤ)) < 2) :
    playSet a b pr s (fuel+1) k ga gb
      = playSet a b pr s fuel (setStep a b pr s k ga gb).1
          (setStep a b pr s k ga gb).2.1 (setStep a b pr s k ga gb).2.2 := by
  simp only [playSet]
  rw [if_pos h]

/-- Helper: once the set-continuation condition fails, the set loop exits,
crediting the set to the side with more games. -/
theorem playSet_exit (a b : ℚ) (pr : Bool) (s : ℕ → ℚ) (fuel k ga gb : ℕ)
    (h : ¬ ((ga < 6 ∧ gb < 6) ∨ Int.natAbs ((ga : ℤ) - (gb : ℤ)) < 2)) :
    playSet a b pr s (fuel+1) k ga gb = some (decide (gb < ga), k) := by
  simp only [playSet]
  rw [if_neg h]

/-- Helper: the outer set loop returns immediately, crediting the match to the
side with more sets, as soon as one side's set count is no longer below
`sets_to_win`. -/
theorem trialLoop_exit_eq (a b : ℚ) (stw : ℕ) (pr : Bool) (s : ℕ → ℚ)
    (gf fuel k sa sb : ℕ) (h : ¬ (sa < stw ∧ sb < stw)) :
    trialLoop a b stw pr s gf (fuel+1) k sa sb = some (decide (sb < sa), k) := by
  simp only [trialLoop]
  rw [if_neg h]

/-- Claim C2 (counterexample): a game is won after a single point draw, not
after accumulating four points: one `setStep` from games 0–0 already moves the
game score to 1–0 (with only one point processed, and 1 < 4), and a set is
then decided purely on game counts (here from 5–0, one further draw ends the
set without any point accumulation). -/
theorem c2_game_per_draw_counterexample :
    setStep (7/10) (1/10) false (fun _ => 0) 0 0 0 = (2, 1, 0) ∧
    (1:ℕ) < 4 ∧
    playSet (7/10) (1/10) false (fun _ => 0) 2 2 5 0 = some (true, 4) := by
  have hw0 : setStep (7/10) (1/10) false (fun _ => 0) 0 0 0 = (0+2, 0+1, 0) :=
    setStep_win (7/10) (1/10) false (fun _ => 0) 0 0 0
      (by norm_num [gamePressure, chosenRate])
  have hw2 : setStep (7/10) (1/10) false (fun _ => 0) 2 5 0 = (2+2, 5+1, 0) :=
    setStep_win (7/10) (1/10) false (fun _ => 0) 2 5 0
      (by norm_num [gamePressure, chosenRate])
  refine ⟨hw0, by omega, ?_⟩
  have h1 : playSet (7/10) (1/10) false (fun _ => 0) (1+1) 2 5 0
      = playSet (7/10) (1/10) false (fun _ => 0) 1 4 6 0 := by
    rw [playSet_step (7/10) (1/10) false (fun _ => 0) 1 2 5 0 (Or.inl (by omega)), hw2]
  have h2 : playSet (7/10) (1/10) false (fun _ => 0) (0+1) 4 6 0
      = some (decide (0 < 6), 4) :=
    playSet_exit (7/10) (1/10) false (fun _ => 0) 0 4 6 0 (by decide)
  exact h1.trans h2

/-- Claim C2 (amended): each iteration of the inner loop consumes one point
draw and awards one whole game to a single side (there is no point count); the
inner loop exits exactly when `(ga ≥ 6 or gb ≥ 6) and |ga − gb| ≥ 2`, awarding
the set to the side with more games, and the outer loop exits, awarding the
match to the side with more sets, exactly when a side's sets reach
`sets_to_win`. -/
theorem c2_transition_order (a b : ℚ) (pr : Bool) (s : ℕ → ℚ)
    (k ga gb fuel stw sa sb gf : ℕ) :
    (setStep a b pr s k ga gb = (k+2, ga+1, gb) ∨
      setStep a b pr s k ga gb = (k+2, ga, gb+1)) ∧
    (¬ ((ga < 6 ∧ gb < 6) ∨ Int.natAbs ((ga : ℤ) - (gb : ℤ)) < 2) →
      playSet a b pr s (fuel+1) k ga gb = some (decide (gb < ga), k)) ∧
    (¬ (sa < stw ∧ sb < stw) →
      trialLoop a b stw pr s gf (fuel+1) k sa sb = some (decide (sb < sa), k)) := by
  refine ⟨?_, ?_, ?_⟩
  · unfold setStep
    split
    · exact Or.inl rfl
    · exact Or.inr rfl
  · intro h
    exact playSet_exit a b pr s fuel k ga gb h
  · intro h
    exact trialLoop_exit_eq a b stw pr s gf fuel k sa sb h

/-- Witness for `c2_transition_order` at a finished set 7–0 and a finished
match 2–0 sets. -/
theorem c2_transition_order_witness :
    (setStep (1/2) (1/2) false (fun _ => 0) 0 7 0 = (2, 8, 0) ∨
      setStep (1/2) (1/2) false (fun _ => 0) 0 7 0 = (2, 7, 1)) ∧
    playSet (1/2) (1/2) false (fun _ => 0) 4 0 7 0 = some (true, 0) ∧
    trialLoop (1/2) (1/2) 2 false (fun _ => 0) 1 4 0 2 0 = some (true, 0) := by
  have h := c2_transition_order (1/2) (1/2) false (fun _ => 0) 0 7 0 3 2 2 0 1
  exact ⟨h.1, h.2.1 (by decide), h.2.2 (by decide)⟩

/-- Claim C3 (counterexample): two supplied scoreboards that differ only in
the games entry for side A produce the very same trial on the same random
stream — the supplied games (and points and advantage flags) never reach the
simulation. -/
theorem c3_games_ignored_counterexample :
    (⟨1, 0, 0, 0, 0, 0, false, false⟩ : SuppliedScore)
      ≠ (⟨1, 0, 5, 0, 0, 0, false, false⟩ : SuppliedScore) ∧
    runTrial (7/10) (7/10) 2 false ⟨1, 0, 0, 0, 0, 0, false, false⟩ (fun _ => 0) 3 10 0
      = runTrial (7/10) (7/10) 2 false ⟨1, 0, 5, 0, 0, 0, false, false⟩ (fun _ => 0) 3 10 0 := by
  exact ⟨by decide, rfl⟩

/-- Claim C3 (amended): each trial starts from the supplied set counts only —
the trial is the loop `trialLoop` seeded with `sets_a`, `sets_b` — and any two
supplied scoreboards agreeing on sets (however they differ in games, points or
advantage flags) produce identical trials. -/
theorem c3_trial_seeded_from_sets (a b : ℚ) (stw : ℕ) (pr : Bool) (s : ℕ → ℚ)
    (sf gf k : ℕ) (sc sc' : SuppliedScore)
    (hA : sc.sets_a = sc'.sets_a) (hB : sc.sets_b = sc'.sets_b) :
    runTrial a b stw pr sc s sf gf k = runTrial a b stw pr sc' s sf gf k ∧
    runTrial a b stw pr sc s sf gf k
      = trialLoop a b stw pr s gf sf k sc.sets_a sc.sets_b := by
  unfold runTrial
  rw [hA, hB]
  exact ⟨rfl, rfl⟩

/-- Witness for `c3_trial_seeded_from_sets` on scoreboards differing in games
and points but agreeing on sets. -/
theorem c3_trial_seeded_from_sets_witness :
    runTrial (7/10) (7/10) 2 false ⟨1, 0, 2, 3, 1, 2, true, false⟩ (fun _ => 0) 3 10 0
      = runTrial (7/10) (7/10) 2 false ⟨1, 0, 0, 0, 0, 0, false, false⟩ (fun _ => 0) 3 10 0 ∧
    runTrial (7/10) (7/10) 2 false ⟨1, 0, 2, 3, 1, 2, true, false⟩ (fun _ => 0) 3 10 0
      = trialLoop (7/10) (7/10) 2 false (fun _ => 0) 10 3 0 1 0 :=
  c3_trial_seeded_from_sets (7/10) (7/10) 2 false (fun _ => 0) 3 10 0
    ⟨1, 0, 2, 3, 1, 2, true, false⟩ ⟨1, 0, 0, 0, 0, 0, false, false⟩ rfl rfl

/-- Helper: the simulation output depends only on the serve components of the
two stats pairs; the return components are never used. -/
theorem simulateFromStats_serve_only (pa pb pa' pb' : ℚ × ℚ) (surface : Surface)
    (fmt : ℕ) (pr : Bool) (sc : SuppliedScore) (s : ℕ → ℚ) (sf gf : ℕ)
    (h1 : pa.1 = pa'.1) (h2 : pb.1 = pb'.1) :
    simulateFromStats pa pb surface fmt pr sc s sf gf
      = simulateFromStats pa' pb' surface fmt pr sc s sf gf := by
  unfold simulateFromStats
  rw [h1, h2]

/-- Claim C4 (counterexample, as the negation of the claimed existence): there
is no pair of inputs differing only in a return-win rate on which the
simulation — and hence the point probability it draws from — differs: the
receiver's return rate is looked up but never used. -/
theorem c4_return_rate_unused :
    ¬ ∃ (pa pb pa' pb' : ℚ × ℚ) (surface : Surface) (fmt : ℕ) (pr : Bool)
        (sc : SuppliedScore) (s : ℕ → ℚ) (sf gf : ℕ),
      pa.1 = pa'.1 ∧ pb.1 = pb'.1 ∧
      simulateFromStats pa pb surface fmt pr sc s sf gf
        ≠ simulateFromStats pa' pb' surface fmt pr sc s sf gf := by
  rintro ⟨pa, pb, pa', pb', surface, fmt, pr, sc, s, sf, gf, h1, h2, hne⟩
  exact hne (simulateFromStats_serve_only pa pb pa' pb' surface fmt pr sc s sf gf h1 h2)

/-- Claim C4 (amended): the per-point probability and the simulated win
probability are computed from the two surface-adjusted serve rates alone; any
two stats inputs agreeing on the serve components give identical simulation
results on the same random stream. -/
theorem c4_sim_from_serve_rates_only (pa pb pa' pb' : ℚ × ℚ) (surface : Surface)
    (fmt : ℕ) (pr : Bool) (sc : SuppliedScore) (s : ℕ → ℚ) (sf gf : ℕ)
    (h1 : pa.1 = pa'.1) (h2 : pb.1 = pb'.1) :
    simulateFromStats pa pb surface fmt pr sc s sf gf
      = simulateFromStats pa' pb' surface fmt pr sc s sf gf :=
  simulateFromStats_serve_only pa pb pa' pb' surface fmt pr sc s sf gf h1 h2

/-- Witness for `c4_sim_from_serve_rates_only`: raising player B's return rate
from 0.38 to 0.90 leaves the simulation unchanged. -/
theorem c4_sim_from_serve_rates_only_witness :
    simulateFromStats (62/100, 38/100) (62/100, 38/100) Surface.Hard 3 false sc0
        (fun _ => 0) 1 1
      = simulateFromStats (62/100, 38/100) (62/100, 9/10) Surface.Hard 3 false sc0
          (fun _ => 0) 1 1 :=
  c4_sim_from_serve_rates_only (62/100, 38/100) (62/100, 38/100) (62/100, 38/100)
    (62/100, 9/10) Surface.Hard 3 false sc0 (fun _ => 0) 1 1 rfl rfl

/-- Claim C5 (counterexample): the serving side does not alternate between
games.  On a stream whose draws are all 0.3, two consecutive completed games
both use side A's rate 0.9 (while B's rate is 0.1, so the choice is
observable). -/
theorem c5_server_not_alternating :
    chosenRate (9/10) (1/10) (fun _ => 3/10) 0 = 9/10 ∧
    chosenRate (9/10) (1/10) (fun _ => 3/10) 2 = 9/10 ∧
    setStep (9/10) (1/10) false (fun _ => 3/10) 0 0 0 = (2, 1, 0) ∧
    setStep (9/10) (1/10) false (fun _ => 3/10) 2 1 0 = (4, 2, 0) ∧
    (9:ℚ)/10 ≠ 1/10 := by
  refine ⟨by norm_num [chosenRate], by norm_num [chosenRate], ?_, ?_, by norm_num⟩
  · exact setStep_win (9/10) (1/10) false (fun _ => 3/10) 0 0 0
      (by norm_num [gamePressure, chosenRate])
  · exact setStep_win (9/10) (1/10) false (fun _ => 3/10) 2 1 0
      (by norm_num [gamePressure, chosenRate])

/-- Claim C5 (amended): the rate used for a game is redrawn by an independent
coin flip at the start of each game — it is always one of the two serve rates,
chosen only by the draw at the game's stream position — and a game's outcome
depends on nothing beyond its own two draws (so the rate cannot change
mid-game, each game being a single point draw). -/
theorem c5_server_coin_flip (a b : ℚ) (pr : Bool) (s t : ℕ → ℚ) (k ga gb : ℕ) :
    (chosenRate a b s k = a ∨ chosenRate a b s k = b) ∧
    (s k = t k → s (k+1) = t (k+1) →
      setStep a b pr s k ga gb = setStep a b pr t k ga gb) := by
  constructor
  · unfold chosenRate
    split
    · exact Or.inl rfl
    · exact Or.inr rfl
  · intro h1 h2
    unfold setStep chosenRate
    rw [h1, h2]

/-- Witness for `c5_server_coin_flip` on two streams agreeing at positions 0
and 1. -/
theorem c5_server_coin_flip_witness :
    (chosenRate (9/10) (1/10) (fun _ => 3/10) 0 = 9/10 ∨
      chosenRate (9/10) (1/10) (fun _ => 3/10) 0 = 1/10) ∧
    setStep (9/10) (1/10) false (fun _ => 3/10) 0 0 0
      = setStep (9/10) (1/10) false (fun j => if j < 2 then 3/10 else 0) 0 0 0 :=
  ⟨(c5_server_coin_flip (9/10) (1/10) false (fun _ => 3/10)
      (fun j => if j < 2 then 3/10 else 0) 0 0 0).1,
   (c5_server_coin_flip (9/10) (1/10) false (fun _ => 3/10)
      (fun j => if j < 2 then 3/10 else 0) 0 0 0).2 (by norm_num) (by norm_num)⟩

/-- Helper: when the supplied set score is already terminal (side A holds 2
sets in a best-of-three), every trial returns immediately with a win for A and
consumes no draws, so `n` trials add exactly `n` wins. -/
theorem runTrials_sc0 (a b : ℚ) (pr : Bool) (s : ℕ → ℚ) (gf sf : ℕ) :
    ∀ n k wins, runTrials a b 2 pr sc0 s (sf+1) gf n k wins = some (wins + n, k) := by
  intro n
  induction n with
  | zero =>
    intro k wins
    rfl
  | succ m ih =>
    intro k wins
    have htrial : runTrial a b 2 pr sc0 s (sf+1) gf k = some (true, k) :=
      trialLoop_exit_eq a b 2 pr s gf sf k 2 0 (by omega)
    simp only [runTrials]
    rw [htrial]
    show runTrials a b 2 pr sc0 s (sf+1) gf m k (wins + 1) = some (wins + (m+1), k)
    rw [ih k (wins + 1)]
    have harith : wins + 1 + m = wins + (m + 1) := by omega
    rw [harith]

/-- Helper: with the terminal supplied score `sc0`, all 100000 trials are won
by side A and the simulation returns exactly 1. -/
theorem simulate_sc0 (a b : ℚ) (pr : Bool) (s : ℕ → ℚ) (sf gf : ℕ) :
    simulate_match a b 2 pr sc0 s (sf+1) gf = some 1 := by
  unfold simulate_match
  rw [runTrials_sc0 a b pr s gf sf 100000 0 0]
  show some (((0 + 100000 : ℕ) : ℚ) / 100000) = some 1
  norm_num

/-- Claim C8 (counterexample): a completed simulation reports no standard
error.  With the terminal score `sc0` the simulation completes with win
fraction p = 1, for which the claimed standard error is
sqrt(p(1−p)/100000) = 0; but none of the values the app reports (the win
fraction, the market probability at odds 2.0, and the edge) is a number whose
square is p(1−p)/100000. -/
theorem c8_no_standard_error :
    simulate_match (1/2) (1/2) 2 false sc0 (fun _ => 0) 1 1 = some 1 ∧
    ¬ ∃ v ∈ reported_metrics 1 2, 0 ≤ v ∧ v ^ 2 = 1 * (1 - 1) / 100000 := by
  constructor
  · exact simulate_sc0 (1/2) (1/2) false (fun _ => 0) 0 1
  · rintro ⟨v, hv, hv0, hv2⟩
    simp only [reported_metrics, List.mem_cons, List.not_mem_nil, or_false] at hv
    rcases hv with rfl | rfl | rfl
    · norm_num at hv2
    · norm_num [market_prob] at hv2
    · norm_num [market_prob, edge_of] at hv2

/-- Helper: the win counter grows by at most one per trial, so `n` trials can
add at most `n` wins. -/
theorem runTrials_wins_le (a b : ℚ) (stw : ℕ) (pr : Bool) (sc : SuppliedScore)
    (s : ℕ → ℚ) (sf gf : ℕ) :
    ∀ n k wins wins' k',
      runTrials a b stw pr sc s sf gf n k wins = some (wins', k') →
      wins' ≤ wins + n := by
  intro n
  induction n with
  | zero =>
    intro k wins w' k' h
    simp only [runTrials, Option.some.injEq, Prod.mk.injEq] at h
    omega
  | succ m ih =>
    intro k wins w' k' h
    simp only [runTrials] at h
    cases hr : runTrial a b stw pr sc s sf gf k with
    | none =>
      rw [hr] at h
      exact absurd h (by simp)
    | some t =>
      obtain ⟨aWon, k2⟩ := t
      rw [hr] at h
      have h2 := ih k2 (wins + if aWon then 1 else 0) w' k' h
      cases aWon <;> simp at h2 <;> omega

/-- Claim C8 (amended): the simulation's only output is the win fraction — a
rational `wins / 100000` with `wins ≤ 100000`; no standard error (nor any
other statistic) is computed or reported. -/
theorem c8_reports_fraction_only (a b : ℚ) (stw : ℕ) (pr : Bool)
    (sc : SuppliedScore) (s : ℕ → ℚ) (sf gf : ℕ) (r : ℚ)
    (h : simulate_match a b stw pr sc s sf gf = some r) :
    ∃ wins : ℕ, wins ≤ 100000 ∧ r = (wins : ℚ) / 100000 := by
  unfold simulate_match at h
  cases hr : runTrials a b stw pr sc s sf gf 100000 0 0 with
  | none =>
    rw [hr] at h
    exact absurd h (by simp)
  | some t =>
    obtain ⟨wins, k'⟩ := t
    rw [hr] at h
    have h' : some ((wins : ℚ) / 100000) = some r := h
    injection h' with h''
    refine ⟨wins, ?_, h''.symm⟩
    have := runTrials_wins_le a b stw pr sc s sf gf 100000 0 0 wins k' hr
    omega

/-- Witness for `c8_reports_fraction_only` on the terminal-score simulation,
whose output is 1 = 100000/100000. -/
theorem c8_reports_fraction_only_witness :
    simulate_match (1/2) (1/2) 2 false sc0 (fun _ => 0) 1 1 = some 1 ∧
    ∃ wins : ℕ, wins ≤ 100000 ∧ (1 : ℚ) = (wins : ℚ) / 100000 :=
  ⟨simulate_sc0 (1/2) (1/2) false (fun _ => 0) 0 1,
   c8_reports_fraction_only (1/2) (1/2) 2 false sc0 (fun _ => 0) 1 1 1
     (simulate_sc0 (1/2) (1/2) false (fun _ => 0) 0 1)⟩

/-- Helper: on the period-four stream `divergentStream`, with both rates 1/2
and no pressure, game wins alternate forever; from any tied game score at a
phase-0 stream position (or one game up at phase 2) the set loop never exits,
whatever fuel it is given. -/
theorem playSet_divergent : ∀ fuel g m : ℕ,
    playSet (1/2) (1/2) false divergentStream fuel (4*m) g g = none ∧
    playSet (1/2) (1/2) false divergentStream fuel (4*m+2) (g+1) g = none := by
  intro fuel
  induction fuel with
  | zero => intro g m; exact ⟨rfl, rfl⟩
  | succ n ih =>
    intro g m
    have hs1 : divergentStream (4*m+1) = 0 := by
      unfold divergentStream
      rw [if_neg (by omega)]
    have hs3 : divergentStream (4*m+3) = 9/10 := by
      unfold divergentStream
      rw [if_pos (by omega)]
    have hcr0 : chosenRate (1/2) (1/2) divergentStream (4*m) = 1/2 := by
      unfold chosenRate
      rw [ite_self]
    have hcr2 : chosenRate (1/2) (1/2) divergentStream (4*m+2) = 1/2 := by
      unfold chosenRate
      rw [ite_self]
    constructor
    · have hgp : gamePressure false g g (chosenRate (1/2) (1/2) divergentStream (4*m))
          = 1/2 := by
        unfold gamePressure
        rw [if_neg (by simp), hcr0]
      have hstep : setStep (1/2) (1/2) false divergentStream (4*m) g g
          = (4*m+2, g+1, g) :=
        setStep_win (1/2) (1/2) false divergentStream (4*m) g g
          (by rw [hs1, hgp]; norm_num)
      rw [playSet_step (1/2) (1/2) false divergentStream n (4*m) g g
            (Or.inr (by rw [sub_self]; decide)),
          hstep]
      exact (ih g m).2
    · have hgp : gamePressure false (g+1) g (chosenRate (1/2) (1/2) divergentStream (4*m+2))
          = 1/2 := by
        unfold gamePressure
        rw [if_neg (by simp), hcr2]
      have hstep : setStep (1/2) (1/2) false divergentStream (4*m+2) (g+1) g
          = (4*m+2+2, g+1, g+1) :=
        setStep_loss (1/2) (1/2) false divergentStream (4*m+2) (g+1) g
          (by rw [show 4*m+2+1 = 4*m+3 from rfl, hs3, hgp]; norm_num)
      rw [playSet_step (1/2) (1/2) false divergentStream n (4*m+2) (g+1) g
            (Or.inr (by push_cast; rw [add_sub_cancel_left]; decide)),
          hstep]
      exact (ih (g+1) (m+1)).1

/-- Claim C9 (amended): the source has no iteration cap and raises no
divergence error: on the stream `divergentStream` the inner game loop never
terminates — for every fuel bound it is still running (`none`), from any tied
game score. -/
theorem c9_no_iteration_cap (fuel g m : ℕ) :
    playSet (1/2) (1/2) false divergentStream fuel (4*m) g g = none :=
  (playSet_divergent fuel g m).1

/-- Claim C9 (counterexample): a match on `divergentStream` plays more than
10000 points without terminating and without any `SimulationDivergedError`
being raised — no such error exists in the source, whose loops are unbounded. -/
theorem c9_cap_exceeded_without_error :
    playSet (1/2) (1/2) false divergentStream 10001 0 0 0 = none :=
  (playSet_divergent 10001 0 0).1
